import Mathlib

/-!
Verification of the Doctor Assignment & Queue Sequencing Engine of the
health-scan-connect backend.

The development shallowly embeds the relevant JavaScript source:
the pre-save queue-number hook and the global uniqueness constraint of
src/models/Queue.js, and the symptom classifier, workload scorer,
doctor selector and assignment orchestrator of
src/services/doctorAssignment.js.

Days are modelled as natural-number day indices (the hook only compares
checkedInAt against the start of the current day, so a day index captures
the comparison exactly).  Mongo document collections are modelled as Lean
lists, collaborator count queries as Except-valued inputs, and the
JavaScript floating point scores as rationals.
-/

namespace HealthScan

/-- A stored queue document, reduced to the fields the sequencer reads:
the service day of checkedInAt and the assigned queueNumber. -/
structure QEntry where
  day : Nat
  number : Nat
deriving DecidableEq, Repr

/-- Embeds the findOne filter of the pre-save hook in src/models/Queue.js:
checkedInAt greater than or equal to the start of today. -/
def todaysEntries (st : List QEntry) (today : Nat) : List QEntry :=
  st.filter (fun e => today ≤ e.day)

/-- Maximum queueNumber in a list of documents (the findOne sorted by
queueNumber descending); zero on the empty list, matching the null case. -/
def maxNumber (l : List QEntry) : Nat :=
  l.foldl (fun m e => max m e.number) 0

/-- Embeds the number computation of the pre-save hook of
src/models/Queue.js: this.queueNumber = lastQueue ? lastQueue.queueNumber + 1 : 1. -/
def nextQueueNumber (st : List QEntry) (today : Nat) : Nat :=
  if todaysEntries st today = [] then 1
  else maxNumber (todaysEntries st today) + 1

/-- All queueNumbers currently stored, across every day.  The schema
declares queueNumber with unique true, so the unique index ranges over
the whole collection. -/
def usedNumbers (st : List QEntry) : List Nat :=
  st.map (·.number)

/-- Embeds one complete save of a new queue document: the pre-save hook
assigns nextQueueNumber, then the insert succeeds only if the assigned
number does not violate the collection-wide unique index on queueNumber. -/
def saveUnique (st : List QEntry) (today : Nat) : Option (List QEntry) :=
  if nextQueueNumber st today ∈ usedNumbers st then none
  else some (st ++ [⟨today, nextQueueNumber st today⟩])

/-- Runs n sequential saves on the given day starting from the empty
collection; a rejected save leaves the collection unchanged. -/
def runSaves (today : Nat) : Nat → List QEntry
  | 0 => []
  | n + 1 =>
    match saveUnique (runSaves today n) today with
    | some st2 => st2
    | none => runSaves today n

/-- The collection after n successful same-day saves: entries numbered 1..n. -/
def dayList (d n : Nat) : List QEntry :=
  (List.range n).map (fun i => ⟨d, i + 1⟩)


/-- Interleaving of two pre-save hooks in which both findOne reads commit
before either insert does: thread A reads the current maximum, thread B
reads before A has inserted, then both insert the number they computed.
Returns the two issued numbers and the final collection. -/
def interleavedSaves (st : List QEntry) (today : Nat) :
    Nat × Nat × List QEntry :=
  (nextQueueNumber st today,
   nextQueueNumber st today,
   (st ++ [⟨today, nextQueueNumber st today⟩]) ++
     [⟨today, nextQueueNumber st today⟩])

/-! Symptom classifier (analyzeSymptoms of src/services/doctorAssignment.js).
Strings are handled as lists of characters; toLowerCase is the ASCII
character lowering, which agrees with JavaScript on the ASCII texts the
rule table uses. -/

/-- SYMPTOM_SPECIALIZATION_MAP of src/services/doctorAssignment.js,
in source (insertion) order. -/
def symptomSpecializationMap : List (String × List String) :=
  [("chest pain", ["cardiology", "emergency"]),
   ("heart palpitations", ["cardiology"]),
   ("shortness of breath", ["cardiology", "pulmonology"]),
   ("irregular heartbeat", ["cardiology"]),
   ("chest tightness", ["cardiology", "emergency"]),
   ("heart attack", ["emergency", "cardiology"]),
   ("high blood pressure", ["cardiology", "internal-medicine"]),
   ("coronary", ["cardiology"]),
   ("skin rash", ["dermatology"]),
   ("acne", ["dermatology"]),
   ("eczema", ["dermatology"]),
   ("psoriasis", ["dermatology"]),
   ("moles", ["dermatology"]),
   ("skin cancer", ["dermatology", "oncology"]),
   ("dermatitis", ["dermatology"]),
   ("hives", ["dermatology", "allergy"]),
   ("bone pain", ["orthopedics"]),
   ("joint pain", ["orthopedics", "rheumatology"]),
   ("back pain", ["orthopedics", "neurology"]),
   ("fracture", ["orthopedics", "emergency"]),
   ("arthritis", ["rheumatology", "orthopedics"]),
   ("knee pain", ["orthopedics"]),
   ("shoulder pain", ["orthopedics"]),
   ("hip pain", ["orthopedics"]),
   ("muscle pain", ["orthopedics", "sports-medicine"]),
   ("headache", ["neurology", "internal-medicine"]),
   ("migraine", ["neurology"]),
   ("seizure", ["neurology", "emergency"]),
   ("dizziness", ["neurology", "ent"]),
   ("memory loss", ["neurology", "psychiatry"]),
   ("stroke", ["emergency", "neurology"]),
   ("tremor", ["neurology"]),
   ("numbness", ["neurology"]),
   ("stomach pain", ["gastroenterology", "internal-medicine"]),
   ("nausea", ["gastroenterology", "internal-medicine"]),
   ("vomiting", ["gastroenterology", "emergency"]),
   ("diarrhea", ["gastroenterology", "infectious-disease"]),
   ("constipation", ["gastroenterology", "internal-medicine"]),
   ("heartburn", ["gastroenterology"]),
   ("acid reflux", ["gastroenterology"]),
   ("bloating", ["gastroenterology"]),
   ("cough", ["pulmonology", "internal-medicine"]),
   ("asthma", ["pulmonology", "allergy"]),
   ("bronchitis", ["pulmonology"]),
   ("pneumonia", ["pulmonology", "emergency"]),
   ("lung pain", ["pulmonology"]),
   ("breathing difficulty", ["pulmonology", "emergency"]),
   ("ear pain", ["ent"]),
   ("hearing loss", ["ent"]),
   ("sore throat", ["ent", "internal-medicine"]),
   ("tonsillitis", ["ent"]),
   ("sinusitis", ["ent"]),
   ("nasal congestion", ["ent", "allergy"]),
   ("voice hoarseness", ["ent"]),
   ("eye pain", ["ophthalmology"]),
   ("vision problems", ["ophthalmology"]),
   ("blurred vision", ["ophthalmology", "neurology"]),
   ("eye infection", ["ophthalmology"]),
   ("glaucoma", ["ophthalmology"]),
   ("cataracts", ["ophthalmology"]),
   ("depression", ["psychiatry"]),
   ("anxiety", ["psychiatry"]),
   ("panic attacks", ["psychiatry", "cardiology"]),
   ("insomnia", ["psychiatry", "neurology"]),
   ("mood swings", ["psychiatry"]),
   ("bipolar", ["psychiatry"]),
   ("severe pain", ["emergency"]),
   ("unconscious", ["emergency"]),
   ("bleeding", ["emergency", "surgery"]),
   ("poisoning", ["emergency"]),
   ("overdose", ["emergency"]),
   ("trauma", ["emergency", "surgery"]),
   ("burns", ["emergency", "plastic-surgery"]),
   ("fever", ["internal-medicine", "infectious-disease"]),
   ("fatigue", ["internal-medicine"]),
   ("weight loss", ["internal-medicine", "oncology"]),
   ("weight gain", ["internal-medicine", "endocrinology"]),
   ("diabetes", ["endocrinology", "internal-medicine"]),
   ("hypertension", ["cardiology", "internal-medicine"]),
   ("infection", ["infectious-disease", "internal-medicine"]),
   ("menstrual problems", ["gynecology"]),
   ("pregnancy", ["obstetrics", "gynecology"]),
   ("pelvic pain", ["gynecology"]),
   ("breast pain", ["gynecology", "oncology"]),
   ("urinary problems", ["urology"]),
   ("kidney stones", ["urology", "emergency"]),
   ("prostate", ["urology"]),
   ("bladder", ["urology"])]

/-- SYMPTOM_PRIORITY emergency trigger list. -/
def emergencyKeywords : List String :=
  ["heart attack", "stroke", "seizure", "unconscious", "severe bleeding",
   "poisoning", "overdose", "trauma", "severe pain", "breathing difficulty",
   "chest pain"]

/-- SYMPTOM_PRIORITY high trigger list. -/
def highKeywords : List String :=
  ["fracture", "pneumonia", "severe infection", "high fever",
   "vomiting blood", "severe burns"]

/-- SYMPTOM_PRIORITY medium trigger list. -/
def mediumKeywords : List String :=
  ["fever", "infection", "persistent pain", "chronic conditions"]

/-- SYMPTOM_PRIORITY low trigger list. -/
def lowKeywords : List String :=
  ["routine checkup", "minor symptoms", "follow-up"]

/-- toLowerCase, character-wise on the underlying characters. -/
def lowerChars (s : String) : List Char :=
  s.data.map Char.toLower

/-- Tests whether the first list is an initial segment of the second. -/
def startsWithChars : List Char → List Char → Bool
  | [], _ => true
  | _ :: _, [] => false
  | a :: as, b :: bs => a == b && startsWithChars as bs

/-- JavaScript String.prototype.includes: the needle occurs as a
contiguous substring of the haystack (the empty needle always occurs). -/
def containsSub (hay needle : List Char) : Bool :=
  match hay with
  | [] => needle.isEmpty
  | _ :: t => startsWithChars needle hay || containsSub t needle

/-- Containment of a rule phrase in the lower-cased symptom text. -/
def includesPhrase (lower : List Char) (phrase : String) : Bool :=
  containsSub lower phrase.data

/-- Result record of analyzeSymptoms. -/
structure SymptomAnalysis where
  specializations : List String
  priority : String
  matchedSymptoms : List String
  confidence : String
deriving DecidableEq, Repr

/-- JavaScript Set.add on a list kept in insertion order. -/
def addUnique (acc : List String) (x : String) : List String :=
  if x ∈ acc then acc else acc ++ [x]

/-- The rules of the table whose phrase occurs in the lower-cased text,
in table order (the forEach of analyzeSymptoms). -/
def matchedRules (lower : List Char) : List (String × List String) :=
  symptomSpecializationMap.filter (fun r => includesPhrase lower r.1)

/-- Union of the specialty tags of the matched rules, in first-insertion
order (the Set of analyzeSymptoms). -/
def collectSpecs (rules : List (String × List String)) : List String :=
  rules.foldl (fun acc r => r.2.foldl addUnique acc) []

/-- Priority resolution loop of analyzeSymptoms: tiers scanned in the
fixed order emergency, high, medium, low; the first tier with a matching
trigger phrase wins, defaulting to low. -/
def resolvePriority (lower : List Char) : String :=
  if emergencyKeywords.any (includesPhrase lower) then "emergency"
  else if highKeywords.any (includesPhrase lower) then "high"
  else if mediumKeywords.any (includesPhrase lower) then "medium"
  else "low"

/-- Embeds analyzeSymptoms of src/services/doctorAssignment.js. -/
def analyzeSymptoms (symptoms : String) : SymptomAnalysis :=
  { specializations :=
      if (collectSpecs (matchedRules (lowerChars symptoms))).isEmpty
      then ["internal-medicine"]
      else collectSpecs (matchedRules (lowerChars symptoms))
    priority := resolvePriority (lowerChars symptoms)
    matchedSymptoms := (matchedRules (lowerChars symptoms)).map (·.1)
    confidence :=
      if 0 < ((matchedRules (lowerChars symptoms)).map (·.1)).length
      then "high" else "low" }

/-! Workload scorer and doctor selector
(calculateDoctorWorkload, getAverageWaitTime, findBestDoctor of
src/services/doctorAssignment.js).  The two Mongo count queries and the
waiting-queue query are collaborator calls that can fail; they are passed
in as Except-valued results, and the catch blocks of the source become the
error branches.  JavaScript numbers are embedded as rationals. -/

/-- Queue document fields read by the workload and wait-time queries. -/
structure QueueDoc where
  doctorId : String
  status : String
deriving DecidableEq, Repr

/-- Count of queue documents of the doctor with status waiting or
in-progress (the first countDocuments of calculateDoctorWorkload). -/
def countActiveQueue (db : List QueueDoc) (d : String) : Nat :=
  (db.filter (fun e => e.doctorId == d
      && (e.status == "waiting" || e.status == "in-progress"))).length

/-- Count of queue documents of the doctor with status waiting only
(the find of getAverageWaitTime). -/
def countWaiting (db : List QueueDoc) (d : String) : Nat :=
  (db.filter (fun e => e.doctorId == d && e.status == "waiting")).length

/-- Embeds calculateDoctorWorkload: on success of both counts the score is
queueCount * 2 + todayAppointments; any query failure is caught and the
sentinel 999 is returned instead of propagating the error. -/
def calculateDoctorWorkload (qres ares : Except Unit Nat) : Nat :=
  match qres with
  | Except.error _ => 999
  | Except.ok q =>
    match ares with
    | Except.error _ => 999
    | Except.ok a => q * 2 + a

/-- Embeds getAverageWaitTime: on success, 0 for an empty waiting queue
and otherwise 15 minutes per waiting entry; 999 when the query fails. -/
def getAverageWaitTime (wres : Except Unit Nat) : Nat :=
  match wres with
  | Except.error _ => 999
  | Except.ok n => if n = 0 then 0 else n * 15

/-- Doctor directory record fields read by findBestDoctor
(src/models/User.js: department and specializations are optional). -/
structure Doctor where
  id : String
  role : String
  isActive : Bool
  department : Option String
  specializations : Option (List String)
deriving DecidableEq, Repr

/-- Specialization match score of findBestDoctor: 10 when the primary
department is among the requested specializations, plus 5 for each listed
secondary specialization also requested. -/
def specializationScore (specs : List String) (d : Doctor) : ℚ :=
  (match d.department with
   | some dep => if dep ∈ specs then 10 else 0
   | none => 0)
  + (match d.specializations with
     | some ss => ((ss.filter (fun sp => sp ∈ specs)).length : ℚ) * 5
     | none => 0)

/-- Urgency multiplier of findBestDoctor. -/
def priorityMultiplier (priority : String) : ℚ :=
  if priority == "emergency" then 1/10
  else if priority == "high" then 1/2
  else if priority == "medium" then 1 else 3/2

/-- Scored candidate produced for each available doctor. -/
structure ScoredCandidate where
  doctor : Doctor
  workload : Nat
  waitTime : Nat
  specializationScore : ℚ
  finalScore : ℚ
deriving DecidableEq, Repr

/-- Embeds the per-doctor scoring step of findBestDoctor. -/
def scoreDoctor (specs : List String) (priority : String)
    (qcount acount wcount : String → Except Unit Nat) (d : Doctor) :
    ScoredCandidate :=
  { doctor := d
    workload := calculateDoctorWorkload (qcount d.id) (acount d.id)
    waitTime := getAverageWaitTime (wcount d.id)
    specializationScore := specializationScore specs d
    finalScore :=
      ((calculateDoctorWorkload (qcount d.id) (acount d.id) : ℚ)
          + (getAverageWaitTime (wcount d.id) : ℚ) / 15)
        * priorityMultiplier priority
        - specializationScore specs d }

/-- Stable insertion of a candidate into a list already sorted by
ascending final score: the new candidate goes after existing candidates of
equal score only if it compares strictly greater, i.e. before them when
processed earlier, which models the stable ascending sort of
doctorScores.sort in findBestDoctor. -/
def insertByScore (a : ScoredCandidate) :
    List ScoredCandidate → List ScoredCandidate
  | [] => [a]
  | b :: l =>
    if a.finalScore ≤ b.finalScore then a :: b :: l
    else b :: insertByScore a l

/-- Stable ascending sort by final score (JavaScript sort is stable). -/
def sortByScore : List ScoredCandidate → List ScoredCandidate
  | [] => []
  | a :: l => insertByScore a (sortByScore l)

/-- Embeds the selection step of findBestDoctor: sort the scored
candidates by ascending final score and take element 0. -/
def selectBest (x : ScoredCandidate) (l : List ScoredCandidate) :
    ScoredCandidate :=
  (sortByScore (x :: l)).headD x

/-- The earliest-supplied candidate attaining the minimal final score
(the specification-side description of the selection). -/
def firstMin (x : ScoredCandidate) (l : List ScoredCandidate) :
    ScoredCandidate :=
  l.foldl (fun b c => if c.finalScore < b.finalScore then c else b) x

/-- Embeds the User.find query of findBestDoctor: active doctors whose
department or secondary specializations intersect the requested
specializations, plus the internal-medicine fallback. -/
def eligibleDoctors (users : List Doctor) (specs : List String) :
    List Doctor :=
  users.filter (fun u => u.role == "doctor" && u.isActive
    && ((match u.department with
         | some dep => decide (dep ∈ specs)
         | none => false)
      || (match u.specializations with
          | some ss => ss.any (fun sp => decide (sp ∈ specs))
          | none => false)
      || u.department == some "internal-medicine"))

/-- Embeds findBestDoctor of src/services/doctorAssignment.js: an error
when no doctor qualifies, otherwise the best-scored candidate. -/
def findBestDoctor (users : List Doctor) (specs : List String)
    (priority : String) (qcount acount wcount : String → Except Unit Nat) :
    Except String ScoredCandidate :=
  match eligibleDoctors users specs with
  | [] => Except.error "No available doctors found for the required specializations"
  | d :: ds =>
    Except.ok (selectBest
      (scoreDoctor specs priority qcount acount wcount d)
      (ds.map (scoreDoctor specs priority qcount acount wcount)))

/-- Assignment record returned by the orchestrator, reduced to the fields
the claims are about. -/
structure AssignmentResult where
  patientId : String
  doctorId : String
  queueNumber : Nat
  priority : String
deriving DecidableEq, Repr

/-- Embeds assignDoctorToPatient of src/services/doctorAssignment.js:
classify the symptoms, find the best doctor, then save a new queue entry;
any failure is caught and rethrown wrapped in a Doctor assignment failed
message, and in that case no queue entry has been saved, so the queue
collection is returned unchanged. -/
def assignDoctorToPatient (users : List Doctor)
    (qcount acount wcount : String → Except Unit Nat)
    (st : List QEntry) (today : Nat) (patientId symptoms : String) :
    Except String AssignmentResult × List QEntry :=
  match findBestDoctor users (analyzeSymptoms symptoms).specializations
      (analyzeSymptoms symptoms).priority qcount acount wcount with
  | Except.error e => (Except.error ("Doctor assignment failed: " ++ e), st)
  | Except.ok best =>
    match saveUnique st today with
    | none => (Except.error "Doctor assignment failed: duplicate queue number", st)
    | some st2 =>
      (Except.ok { patientId := patientId, doctorId := best.doctor.id,
                   queueNumber := nextQueueNumber st today,
                   priority := (analyzeSymptoms symptoms).priority }, st2)

/-- Concrete doctor with the lexicographically smaller id, used to check
the tie-breaking behaviour of the selector. -/
def doctorX : Doctor :=
  { id := "a", role := "doctor", isActive := true,
    department := some "internal-medicine", specializations := none }

/-- Concrete doctor with the lexicographically larger id. -/
def doctorY : Doctor :=
  { id := "b", role := "doctor", isActive := true,
    department := some "internal-medicine", specializations := none }

theorem maxNumber_append (l : List QEntry) (e : QEntry) :
    maxNumber (l ++ [e]) = max (maxNumber l) e.number := by
  simp [maxNumber, List.foldl_append]

theorem dayList_succ (d n : Nat) :
    dayList d (n + 1) = dayList d n ++ [⟨d, n + 1⟩] := by
  simp [dayList, List.range_succ]

theorem maxNumber_dayList (d n : Nat) : maxNumber (dayList d n) = n := by
  induction n with
  | zero => simp [dayList, maxNumber]
  | succ n ih =>
    rw [dayList_succ, maxNumber_append, ih]
    simp

theorem todaysEntries_dayList (d n : Nat) :
    todaysEntries (dayList d n) d = dayList d n := by
  rw [todaysEntries, List.filter_eq_self]
  intro e he
  simp only [dayList, List.mem_map, List.mem_range] at he
  obtain ⟨i, _, rfl⟩ := he
  simp

theorem usedNumbers_dayList (d n : Nat) :
    usedNumbers (dayList d n) = (List.range n).map (· + 1) := by
  simp [usedNumbers, dayList]

theorem nextQueueNumber_dayList (d n : Nat) :
    nextQueueNumber (dayList d n) d = n + 1 := by
  rw [nextQueueNumber, todaysEntries_dayList]
  rcases n with _ | m
  · simp [dayList]
  · rw [if_neg (by simp [dayList_succ]), maxNumber_dayList]

theorem saveUnique_dayList (d n : Nat) :
    saveUnique (dayList d n) d = some (dayList d (n + 1)) := by
  have hnot : n + 1 ∉ usedNumbers (dayList d n) := by
    intro hmem
    rw [usedNumbers_dayList] at hmem
    simp only [List.mem_map, List.mem_range] at hmem
    obtain ⟨i, hi, heq⟩ := hmem
    omega
  simp only [saveUnique, nextQueueNumber_dayList, if_neg hnot, dayList_succ]

theorem runSaves_eq_dayList (d n : Nat) : runSaves d n = dayList d n := by
  induction n with
  | zero => rfl
  | succ n ih =>
    simp only [runSaves, ih, saveUnique_dayList]

theorem nextQueueNumber_new_day (st : List QEntry) (d : Nat)
    (h : ∀ e ∈ st, e.day < d) : nextQueueNumber st d = 1 := by
  have ht : todaysEntries st d = [] := by
    rw [todaysEntries, List.filter_eq_nil_iff]
    intro e he
    simp only [decide_eq_true_eq, not_le]
    exact h e he
  rw [nextQueueNumber, ht]
  simp

theorem mem_addUnique_self (acc : List String) (x : String) :
    x ∈ addUnique acc x := by
  rw [addUnique]
  split
  · assumption
  · simp

theorem mem_addUnique_of_mem (acc : List String) (x y : String)
    (h : y ∈ acc) : y ∈ addUnique acc x := by
  rw [addUnique]
  split
  · exact h
  · simp [h]

theorem mem_foldl_addUnique_of_mem (l : List String) (acc : List String)
    (y : String) (h : y ∈ acc) : y ∈ l.foldl addUnique acc := by
  induction l generalizing acc with
  | nil => exact h
  | cons a t ih => exact ih _ (mem_addUnique_of_mem acc a y h)

theorem mem_foldl_addUnique_of_mem_list (l : List String) (acc : List String)
    (y : String) (h : y ∈ l) : y ∈ l.foldl addUnique acc := by
  induction l generalizing acc with
  | nil => cases h
  | cons a t ih =>
    rcases List.mem_cons.mp h with rfl | hy
    · exact mem_foldl_addUnique_of_mem t _ y (mem_addUnique_self acc y)
    · exact ih _ hy

theorem mem_collectSpecs_outer (rules : List (String × List String))
    (acc : List String) (y : String) (h : y ∈ acc) :
    y ∈ rules.foldl (fun acc r => r.2.foldl addUnique acc) acc := by
  induction rules generalizing acc with
  | nil => exact h
  | cons r t ih => exact ih _ (mem_foldl_addUnique_of_mem r.2 acc y h)

theorem mem_collectSpecs_aux (rules : List (String × List String))
    (acc : List String) (r : String × List String) (y : String)
    (hr : r ∈ rules) (hy : y ∈ r.2) :
    y ∈ rules.foldl (fun acc r => r.2.foldl addUnique acc) acc := by
  induction rules generalizing acc with
  | nil => cases hr
  | cons a t ih =>
    rcases List.mem_cons.mp hr with rfl | ha
    · exact mem_collectSpecs_outer t _ y
        (mem_foldl_addUnique_of_mem_list r.2 _ y hy)
    · exact ih _ ha

theorem mem_collectSpecs (rules : List (String × List String))
    (r : String × List String) (y : String) (hr : r ∈ rules) (hy : y ∈ r.2) :
    y ∈ collectSpecs rules :=
  mem_collectSpecs_aux rules [] r y hr hy

theorem specializations_of_match (s : String) (r : String × List String)
    (y : String) (hr : r ∈ symptomSpecializationMap) (hy : y ∈ r.2)
    (h : includesPhrase (lowerChars s) r.1 = true) :
    y ∈ (analyzeSymptoms s).specializations := by
  have hrule : r ∈ matchedRules (lowerChars s) :=
    List.mem_filter.mpr ⟨hr, h⟩
  have hc : y ∈ collectSpecs (matchedRules (lowerChars s)) :=
    mem_collectSpecs _ r y hrule hy
  have hne : (collectSpecs (matchedRules (lowerChars s))).isEmpty = false := by
    rcases hl : collectSpecs (matchedRules (lowerChars s)) with _ | ⟨a, t⟩
    · rw [hl] at hc
      cases hc
    · rfl
  rw [analyzeSymptoms]
  simp only [hne, Bool.false_eq_true, if_false]
  exact hc

theorem insertByScore_ne_nil (a : ScoredCandidate)
    (l : List ScoredCandidate) : insertByScore a l ≠ [] := by
  cases l with
  | nil => simp [insertByScore]
  | cons b t =>
    rw [insertByScore]
    split <;> simp

theorem firstMin_cons (t : List ScoredCandidate) :
    ∀ x y : ScoredCandidate,
      firstMin x (y :: t)
        = if x.finalScore ≤ (firstMin y t).finalScore then x
          else firstMin y t := by
  induction t with
  | nil =>
    intro x y
    show (if y.finalScore < x.finalScore then y else x)
      = if x.finalScore ≤ y.finalScore then x else y
    split_ifs <;> first | rfl | linarith
  | cons z t ih =>
    intro x y
    have hx : firstMin x (y :: z :: t)
        = firstMin (if y.finalScore < x.finalScore then y else x) (z :: t) :=
      rfl
    rw [hx, ih, ih]
    split_ifs <;> first | rfl | linarith

theorem selectBest_eq_firstMin (l : List ScoredCandidate) :
    ∀ x, selectBest x l = firstMin x l := by
  induction l with
  | nil => intro x; rfl
  | cons y t ih =>
    intro x
    have hsort : sortByScore (y :: t) ≠ [] := insertByScore_ne_nil _ _
    obtain ⟨b, s, hb⟩ := List.exists_cons_of_ne_nil hsort
    have hbval : b = firstMin y t := by
      have h1 := ih y
      rw [selectBest, hb] at h1
      simpa using h1
    have h2 : selectBest x (y :: t)
        = if x.finalScore ≤ b.finalScore then x else b := by
      show (insertByScore x (sortByScore (y :: t))).headD x = _
      rw [hb, insertByScore]
      split <;> simp
    rw [h2, hbval, firstMin_cons]

theorem firstMin_mem (l : List ScoredCandidate) :
    ∀ x, firstMin x l ∈ x :: l := by
  induction l with
  | nil => intro x; simp [firstMin]
  | cons y t ih =>
    intro x
    rw [firstMin_cons]
    split
    · exact List.mem_cons_self x _
    · exact List.mem_cons_of_mem x (ih y)

theorem firstMin_le (l : List ScoredCandidate) :
    ∀ x, ∀ y ∈ x :: l, (firstMin x l).finalScore ≤ y.finalScore := by
  induction l with
  | nil =>
    intro x y hy
    have : y = x := by simpa using hy
    subst this
    exact le_refl _
  | cons z t ih =>
    intro x y hy
    rw [firstMin_cons]
    by_cases hle : x.finalScore ≤ (firstMin z t).finalScore
    · rw [if_pos hle]
      rcases List.mem_cons.mp hy with rfl | hy2
      · exact le_refl _
      · exact le_trans hle (ih z y hy2)
    · rw [if_neg hle]
      rcases List.mem_cons.mp hy with rfl | hy2
      · exact le_of_lt (lt_of_not_le hle)
      · exact ih z y hy2

end HealthScan

open HealthScan

/-- C1. Sequential sequencer contract: starting from an empty collection,
n saves performed one after another on day d all succeed and issue exactly
the numbers 1, 2, ..., n in order, so within the day the issued numbers are
unique, positive and strictly increasing, the first entry of the day gets 1,
each later entry gets the current day maximum plus one, and the computed
number resets to 1 exactly at day rollover (a state whose entries all lie on
earlier days yields 1 again). -/
theorem sequencer_sequential_contract (d n : Nat) :
    (runSaves d n).map (·.number) = (List.range n).map (· + 1)
    ∧ nextQueueNumber (runSaves d n) d = n + 1
    ∧ ((runSaves d n).map (·.number)).Pairwise (· < ·)
    ∧ (∀ m ∈ (runSaves d n).map (·.number), 0 < m)
    ∧ (∀ st : List QEntry, (∀ e ∈ st, e.day < d) → nextQueueNumber st d = 1) := by
  refine ⟨?_, ?_, ?_, ?_, ?_⟩
  · rw [runSaves_eq_dayList]
    simp [dayList]
  · rw [runSaves_eq_dayList, nextQueueNumber_dayList]
  · rw [runSaves_eq_dayList]
    have : (dayList d n).map (·.number) = (List.range n).map (· + 1) := by
      simp [dayList]
    rw [this]
    exact (List.pairwise_lt_range n).map _ (fun a b hab => by omega)
  · rw [runSaves_eq_dayList]
    intro m hm
    simp only [dayList, List.map_map, List.mem_map, List.mem_range,
      Function.comp] at hm
    obtain ⟨i, _, rfl⟩ := hm
    omega
  · exact fun st h => nextQueueNumber_new_day st d h

/-- Witness for C1: two saves on day 3 issue numbers 1 and 2, and a state
holding only a day-2 entry yields number 1 on day 3. -/
theorem sequencer_sequential_contract_witness :
    (runSaves 3 2).map (·.number) = [1, 2]
    ∧ nextQueueNumber [⟨2, 7⟩] 3 = 1 := by
  refine ⟨?_, ?_⟩
  · have h := (sequencer_sequential_contract 3 2).1
    simpa using h
  · exact (sequencer_sequential_contract 3 0).2.2.2.2 [⟨2, 7⟩] (by decide)

/-- C2. The read-then-write race of the pre-save hook: when two saves on
the same day interleave so that both findOne reads happen before either
insert, both hooks compute the same number, so the pair of issued numbers
is a duplicate and not a set of two consecutive distinct numbers.  At the
concrete state holding one day-5 entry numbered 1, both concurrent saves
are issued number 2. -/
theorem sequencer_race_duplicates :
    (∀ st today, (interleavedSaves st today).1 = (interleavedSaves st today).2.1)
    ∧ (interleavedSaves [⟨5, 1⟩] 5).1 = 2
    ∧ (interleavedSaves [⟨5, 1⟩] 5).2.1 = 2
    ∧ ¬ ((interleavedSaves [⟨5, 1⟩] 5).1 ≠ (interleavedSaves [⟨5, 1⟩] 5).2.1) := by
  refine ⟨fun st today => rfl, by decide, by decide, by decide⟩

/-- C10. Day-rollover collision with the global unique index: if every
stored entry lies on a day before d and the number 1 is already in use
(as it is after any successful first day), then the first save attempted
on day d is assigned number 1 by the hook and is rejected by the
collection-wide unique constraint on queueNumber, so it is not stored. -/
theorem rollover_save_rejected (st : List QEntry) (d : Nat)
    (hpast : ∀ e ∈ st, e.day < d) (hone : 1 ∈ usedNumbers st) :
    nextQueueNumber st d = 1 ∧ saveUnique st d = none := by
  have h1 : nextQueueNumber st d = 1 := nextQueueNumber_new_day st d hpast
  refine ⟨h1, ?_⟩
  rw [saveUnique, h1, if_pos hone]

/-- Witness for C10: after day 0 stored entry number 1, the first save of
day 1 is rejected. -/
theorem rollover_save_rejected_witness :
    nextQueueNumber [⟨0, 1⟩] 1 = 1 ∧ saveUnique [⟨0, 1⟩] 1 = none :=
  rollover_save_rejected [⟨0, 1⟩] 1 (by decide) (by decide)

/-- C7. Chest-pain classification: every symptom text whose lower-cased
form contains the phrase chest pain is classified with specialties
including cardiology and emergency and with urgency emergency; and for the
concrete input severe chest pain and shortness of breath, the specialties
include cardiology, emergency and pulmonology and the urgency is
emergency. -/
theorem classifier_chest_pain (s : String)
    (h : includesPhrase (lowerChars s) "chest pain" = true) :
    "cardiology" ∈ (analyzeSymptoms s).specializations
    ∧ "emergency" ∈ (analyzeSymptoms s).specializations
    ∧ (analyzeSymptoms s).priority = "emergency"
    ∧ (∀ x ∈ (["cardiology", "emergency", "pulmonology"] : List String),
        x ∈ (analyzeSymptoms
          "severe chest pain and shortness of breath").specializations)
    ∧ (analyzeSymptoms
        "severe chest pain and shortness of breath").priority = "emergency" := by
  refine ⟨?_, ?_, ?_, by decide, by decide⟩
  · exact specializations_of_match s ("chest pain", ["cardiology", "emergency"])
      "cardiology" (by decide) (by decide) h
  · exact specializations_of_match s ("chest pain", ["cardiology", "emergency"])
      "emergency" (by decide) (by decide) h
  · have hany : emergencyKeywords.any (includesPhrase (lowerChars s)) = true :=
      List.any_eq_true.mpr ⟨"chest pain", by decide, h⟩
    rw [analyzeSymptoms]
    simp only [resolvePriority, hany, if_true]

/-- Witness for C7: the one-word-pair input chest pain. -/
theorem classifier_chest_pain_witness :
    "cardiology" ∈ (analyzeSymptoms "chest pain").specializations
    ∧ (analyzeSymptoms "chest pain").priority = "emergency" :=
  ⟨(classifier_chest_pain "chest pain" (by decide)).1,
   (classifier_chest_pain "chest pain" (by decide)).2.2.1⟩

/-- C8. No-match fallback: a symptom text matching no phrase of the rule
table is classified with specialties exactly internal-medicine and
confidence low; confidence is high exactly when the matched phrase list is
nonempty; and the classifier is a total function, returning the fallback
result on the empty string as well. -/
theorem classifier_no_match_fallback (s : String) :
    ((∀ r ∈ symptomSpecializationMap,
        includesPhrase (lowerChars s) r.1 = false) →
      (analyzeSymptoms s).specializations = ["internal-medicine"]
      ∧ (analyzeSymptoms s).confidence = "low")
    ∧ ((analyzeSymptoms s).confidence = "high"
        ↔ (analyzeSymptoms s).matchedSymptoms ≠ [])
    ∧ (analyzeSymptoms "").specializations = ["internal-medicine"]
    ∧ (analyzeSymptoms "").confidence = "low"
    ∧ (analyzeSymptoms "").priority = "low" := by
  refine ⟨?_, ?_, by decide, by decide, by decide⟩
  · intro hno
    have hnil : matchedRules (lowerChars s) = [] := by
      rw [matchedRules, List.filter_eq_nil_iff]
      intro r hr
      rw [hno r hr]
      simp
    rw [analyzeSymptoms]
    simp [collectSpecs, hnil]
  · rcases hm : matchedRules (lowerChars s) with _ | ⟨a, t⟩ <;>
      simp [analyzeSymptoms, hm]

/-- Witness for C8: the text zzz matches no phrase of the table. -/
theorem classifier_no_match_fallback_witness :
    (analyzeSymptoms "zzz").specializations = ["internal-medicine"]
    ∧ (analyzeSymptoms "zzz").confidence = "low" :=
  (classifier_no_match_fallback "zzz").1 (by decide)

/-- C3. Doctor scoring formula: the specialty match score is 10 when the
primary department is among the requested specialties plus 5 for each
secondary specialty also requested; the urgency multiplier is 0.1 for
emergency, 0.5 for high, 1 for medium and 1.5 for low; and the final score
is (workload + waitTime / 15) * multiplier - specialty score, with lower
scores preferred. -/
theorem doctor_scoring_formula (specs : List String) (priority : String)
    (qcount acount wcount : String → Except Unit Nat) (d : Doctor) :
    (scoreDoctor specs priority qcount acount wcount d).finalScore
      = (((scoreDoctor specs priority qcount acount wcount d).workload : ℚ)
          + ((scoreDoctor specs priority qcount acount wcount d).waitTime : ℚ) / 15)
        * priorityMultiplier priority
        - (scoreDoctor specs priority qcount acount wcount d).specializationScore
    ∧ (scoreDoctor specs priority qcount acount wcount d).specializationScore
      = (if (d.department.map fun dep => decide (dep ∈ specs)).getD false = true
          then (10 : ℚ) else 0)
        + 5 * (((d.specializations.getD []).countP fun sp => decide (sp ∈ specs)) : ℚ)
    ∧ priorityMultiplier "emergency" = 1/10
    ∧ priorityMultiplier "high" = 1/2
    ∧ priorityMultiplier "medium" = 1
    ∧ priorityMultiplier "low" = 3/2 := by
  refine ⟨rfl, ?_, rfl, rfl, rfl, rfl⟩
  rcases d with ⟨i, r, act, dep, sspec⟩
  rcases dep with _ | dep <;> rcases sspec with _ | ss <;>
    simp [scoreDoctor, specializationScore, List.countP_eq_length_filter] <;>
    ring_nf

/-- C4 counterexample: two candidates with equal final score, the doctor
with the larger id supplied first; the selector returns the first-supplied
doctor (id b), not the ascending-least id (a) the claim requires. -/
theorem selector_tie_break_counterexample :
    findBestDoctor [doctorY, doctorX] ["cardiology"] "medium"
        (fun _ => Except.ok 0) (fun _ => Except.ok 0) (fun _ => Except.ok 0)
      = Except.ok (scoreDoctor ["cardiology"] "medium"
          (fun _ => Except.ok 0) (fun _ => Except.ok 0) (fun _ => Except.ok 0)
          doctorY)
    ∧ (scoreDoctor ["cardiology"] "medium" (fun _ => Except.ok 0)
        (fun _ => Except.ok 0) (fun _ => Except.ok 0) doctorY).doctor.id = "b"
    ∧ doctorX.id = "a" ∧ doctorY.id = "b"
    ∧ (scoreDoctor ["cardiology"] "medium" (fun _ => Except.ok 0)
        (fun _ => Except.ok 0) (fun _ => Except.ok 0) doctorX).finalScore
      = (scoreDoctor ["cardiology"] "medium" (fun _ => Except.ok 0)
        (fun _ => Except.ok 0) (fun _ => Except.ok 0) doctorY).finalScore := by
  have hx : scoreDoctor ["cardiology"] "medium" (fun _ => Except.ok 0)
      (fun _ => Except.ok 0) (fun _ => Except.ok 0) doctorX
      = { doctor := doctorX, workload := 0, waitTime := 0,
          specializationScore := 0, finalScore := 0 } := by
    simp [scoreDoctor, calculateDoctorWorkload, getAverageWaitTime,
      specializationScore, priorityMultiplier, doctorX]
  have hy : scoreDoctor ["cardiology"] "medium" (fun _ => Except.ok 0)
      (fun _ => Except.ok 0) (fun _ => Except.ok 0) doctorY
      = { doctor := doctorY, workload := 0, waitTime := 0,
          specializationScore := 0, finalScore := 0 } := by
    simp [scoreDoctor, calculateDoctorWorkload, getAverageWaitTime,
      specializationScore, priorityMultiplier, doctorY]
  have heligible : eligibleDoctors [doctorY, doctorX] ["cardiology"]
      = [doctorY, doctorX] := by
    simp [eligibleDoctors, doctorX, doctorY]
  refine ⟨?_, by rw [hy]; rfl, rfl, rfl, by rw [hx, hy]⟩
  simp only [findBestDoctor, heligible, List.map_cons, List.map_nil, hx, hy]
  simp [selectBest, sortByScore, insertByScore]

/-- C4 (amended). The selector returns a candidate with the minimal final
score; when several candidates share the minimal score, the winner is the
earliest candidate in the order the directory supplied them (the sort is
stable), not the one with the ascending-least id. -/
theorem selector_first_supplied_minimum (x : ScoredCandidate)
    (l : List ScoredCandidate) :
    selectBest x l = firstMin x l
    ∧ selectBest x l ∈ x :: l
    ∧ ∀ y ∈ x :: l, (selectBest x l).finalScore ≤ y.finalScore := by
  refine ⟨selectBest_eq_firstMin l x, ?_, ?_⟩
  · rw [selectBest_eq_firstMin l x]
    exact firstMin_mem l x
  · intro y hy
    rw [selectBest_eq_firstMin l x]
    exact firstMin_le l x y hy

/-- Witness for the amended C4 at a concrete singleton input. -/
theorem selector_first_supplied_minimum_witness :
    selectBest ⟨doctorX, 0, 0, 0, 0⟩ [] = firstMin ⟨doctorX, 0, 0, 0, 0⟩ [] :=
  (selector_first_supplied_minimum ⟨doctorX, 0, 0, 0, 0⟩ []).1

/-- C5 counterexample: a doctor with one in-progress queue entry has
active-queue count 1 (entering the workload) but estimated wait 0, not
15 * 1, because the wait-time query counts only waiting entries. -/
theorem wait_estimate_counterexample :
    getAverageWaitTime (Except.ok (countWaiting [⟨"d1", "in-progress"⟩] "d1"))
      ≠ 15 * countActiveQueue [⟨"d1", "in-progress"⟩] "d1" := by decide

/-- C5 (amended). The estimated wait minutes equal 15 times the count of
waiting-status entries only; that count never exceeds the active-queue
count (waiting plus in-progress) entering the workload snapshot, and the
two estimates agree exactly when the counts coincide. -/
theorem wait_estimate_waiting_only (db : List QueueDoc) (d : String) :
    getAverageWaitTime (Except.ok (countWaiting db d)) = 15 * countWaiting db d
    ∧ countWaiting db d ≤ countActiveQueue db d
    ∧ (countActiveQueue db d = countWaiting db d →
        getAverageWaitTime (Except.ok (countWaiting db d))
          = 15 * countActiveQueue db d) := by
  have h1 : getAverageWaitTime (Except.ok (countWaiting db d))
      = 15 * countWaiting db d := by
    rw [getAverageWaitTime]
    rcases h : countWaiting db d with _ | m
    · simp
    · rw [if_neg (by omega)]
      omega
  have h2 : countWaiting db d ≤ countActiveQueue db d := by
    rw [countWaiting, countActiveQueue]
    refine List.Sublist.length_le (List.monotone_filter_right db ?_)
    intro e he
    simp only [Bool.and_eq_true, Bool.or_eq_true] at he ⊢
    exact ⟨he.1, Or.inl he.2⟩
  exact ⟨h1, h2, fun hc => by rw [h1, hc]⟩

/-- Witness for the amended C5 at one waiting entry. -/
theorem wait_estimate_waiting_only_witness :
    getAverageWaitTime (Except.ok (countWaiting [⟨"d2", "waiting"⟩] "d2"))
      = 15 * countWaiting [⟨"d2", "waiting"⟩] "d2"
    ∧ getAverageWaitTime (Except.ok (countWaiting [⟨"d2", "waiting"⟩] "d2"))
      = 15 * countActiveQueue [⟨"d2", "waiting"⟩] "d2" :=
  ⟨(wait_estimate_waiting_only [⟨"d2", "waiting"⟩] "d2").1,
   (wait_estimate_waiting_only [⟨"d2", "waiting"⟩] "d2").2.2 (by decide)⟩

/-- C6. Workload score and sentinel recovery: when both collaborator
counts succeed the workload equals 2 * activeQueueCount plus the same-day
appointment count; when either count fails, the computation returns the
sentinel 999 — it is a total function into Nat, so the failure is never
propagated to the caller. -/
theorem workload_score_and_sentinel (q a : Nat) :
    calculateDoctorWorkload (Except.ok q) (Except.ok a) = 2 * q + a
    ∧ calculateDoctorWorkload (Except.error ()) (Except.ok a) = 999
    ∧ calculateDoctorWorkload (Except.ok q) (Except.error ()) = 999
    ∧ calculateDoctorWorkload (Except.error ()) (Except.error ()) = 999 := by
  refine ⟨?_, rfl, rfl, rfl⟩
  simp only [calculateDoctorWorkload]
  omega

/-- C9. Atomic failure on an empty pool: when the directory query yields
no eligible doctor, the orchestrator fails with the wrapped
no-available-doctors error and the queue collection — and therefore the
day maximum the sequencer would read — is returned exactly unchanged: no
queue entry is saved and no sequence number is consumed. -/
theorem orchestrator_empty_pool (users : List Doctor)
    (qcount acount wcount : String → Except Unit Nat)
    (st : List QEntry) (today : Nat) (pid s : String)
    (h : eligibleDoctors users (analyzeSymptoms s).specializations = []) :
    (assignDoctorToPatient users qcount acount wcount st today pid s).1
      = Except.error
        "Doctor assignment failed: No available doctors found for the required specializations"
    ∧ (assignDoctorToPatient users qcount acount wcount st today pid s).2
      = st := by
  have hf : findBestDoctor users (analyzeSymptoms s).specializations
      (analyzeSymptoms s).priority qcount acount wcount
      = Except.error "No available doctors found for the required specializations" := by
    simp only [findBestDoctor, h]
  simp only [assignDoctorToPatient, hf]
  exact ⟨rfl, trivial⟩

/-- Witness for C9: empty directory, one stored entry, symptom text fever. -/
theorem orchestrator_empty_pool_witness :
    (assignDoctorToPatient [] (fun _ => Except.ok 0) (fun _ => Except.ok 0)
        (fun _ => Except.ok 0) [⟨0, 1⟩] 0 "p1" "fever").1
      = Except.error
        "Doctor assignment failed: No available doctors found for the required specializations"
    ∧ (assignDoctorToPatient [] (fun _ => Except.ok 0) (fun _ => Except.ok 0)
        (fun _ => Except.ok 0) [⟨0, 1⟩] 0 "p1" "fever").2
      = [⟨0, 1⟩] :=
  orchestrator_empty_pool [] (fun _ => Except.ok 0) (fun _ => Except.ok 0)
    (fun _ => Except.ok 0) [⟨0, 1⟩] 0 "p1" "fever" rfl
